import Mathlib

/-!
Shallow embedding of the inventory-management application in `app.py`
(Flask + SQLAlchemy) together with proofs of the spec's claims about it.

Modelling conventions:
* The three SQLAlchemy models `User`, `InventoryItem`, `Transaction` become
  Lean structures; the database is a `DBState` holding the three tables as
  lists kept in insertion order (SQLAlchemy appends rows; `Transaction.id`
  is the autoincrement column, modelled by `next_tx_id`).
* Timestamps (`datetime.utcnow()`) are modelled by an abstract clock value
  `now : Nat` passed to each handler.
* Each Flask request handler becomes a pure function from the current state
  (plus request data and session data) to a pair `(Except ApiError α, DBState)`:
  on an error return the handler has not committed anything, so the state
  component is returned unchanged (this mirrors `db.session.rollback()` /
  returning before any `db.session.commit()`).
* The error taxonomy of the spec names the individual `return jsonify(...), code`
  sites of the handlers: `ValidationError` = 400 on malformed input,
  `NotFound` = 404, `Conflict` = 409 / blocked-by-reference 400,
  `InsufficientStock` = the "Stok tidak mencukupi" 400, `Unauthenticated` =
  redirect-to-login / 401, `Forbidden` = redirect-to-unauthorized 403,
  `SelfDeletion` / `InvalidOperation` = the self-referential 400 guards,
  `StoreFailure` = the generic catch-all 500 of an `except` branch.
* Python truthiness on the request strings (`if not item_id`) is modelled by
  comparison with the empty string `""` (absent JSON keys and `None` take the
  same branch as `""`, so both are represented by `""`).
* `werkzeug`'s salted `check_password_hash` is modelled by an abstract
  function `check : String → String → Bool` taken as a parameter.
-/

/-- The `role` column of `User`: the application only ever stores and tests
the three strings `admin`, `manajer` (= the spec's "manager") and `operator`
(cf. `allowed_roles = ['admin', 'manajer', 'operator']`). -/
inductive Role where
  | admin
  | manajer
  | operator
deriving Repr, DecidableEq

/-- The `type` column of `Transaction`: `'masuk'` (incoming) or `'keluar'`
(outgoing). -/
inductive TxType where
  | masuk
  | keluar
deriving Repr, DecidableEq

/-- The string stored in the `type` column for each `TxType`. -/
def txTypeStr : TxType → String
  | .masuk => "masuk"
  | .keluar => "keluar"

/-- Row of the `user` table (`class User(db.Model)`). -/
structure User where
  username : String
  password_hash : String
  role : Role
  name : String
deriving Repr, DecidableEq

/-- Row of the `inventory_item` table (`class InventoryItem(db.Model)`).
`last_update` carries `default=datetime.utcnow, onupdate=datetime.utcnow`:
it is set at insert time and refreshed whenever the row is updated. -/
structure InventoryItem where
  id : String
  name : String
  quantity : Int
  category : String
  added_by : String
  last_update : Nat
deriving Repr, DecidableEq

/-- Row of the `transaction` table (`class Transaction(db.Model)`). -/
structure Transaction where
  id : Nat
  type : TxType
  item_id : String
  quantity : Int
  user_username : String
  timestamp : Nat
  notes : String
deriving Repr, DecidableEq

/-- The database: the three tables in insertion order, plus the
autoincrement counter behind `Transaction.id`. -/
structure DBState where
  users : List User
  items : List InventoryItem
  transactions : List Transaction
  next_tx_id : Nat
deriving Repr, DecidableEq

/-- The payload stored in `session['user']` at login:
`{'username': ..., 'role': ..., 'name': ...}`. -/
structure SessionUser where
  username : String
  role : Role
  name : String
deriving Repr, DecidableEq

/-- The spec's error taxonomy (§7), naming the error-return sites of the
handlers. -/
inductive ApiError where
  | ValidationError (msg : String)
  | NotFound
  | Conflict
  | InsufficientStock
  | Unauthenticated
  | Forbidden
  | SelfDeletion
  | InvalidOperation
  | StoreFailure
deriving Repr, DecidableEq

instance {ε α : Type} [DecidableEq ε] [DecidableEq α] : DecidableEq (Except ε α) :=
  fun a b =>
  match a, b with
  | .ok x, .ok y =>
    if h : x = y then isTrue (by rw [h]) else isFalse (fun hc => h (Except.ok.inj hc))
  | .ok _, .error _ => isFalse (fun hc => Except.noConfusion hc)
  | .error _, .ok _ => isFalse (fun hc => Except.noConfusion hc)
  | .error x, .error y =>
    if h : x = y then isTrue (by rw [h]) else isFalse (fun hc => h (Except.error.inj hc))

/-- Is the error the 400 `ValidationError` class? -/
def ApiError.isValidation : ApiError → Bool
  | .ValidationError _ => true
  | _ => false

/-- `InventoryItem.query.get(item_id)`: primary-key lookup. -/
def findItem (st : DBState) (item_id : String) : Option InventoryItem :=
  st.items.find? (fun x => x.id == item_id)

/-- `User.query.filter_by(username=...).first()`. -/
def findUser (st : DBState) (username : String) : Option User :=
  st.users.find? (fun u => u.username == username)

/-- Remove leading and trailing whitespace from a character list. -/
def stripChars (l : List Char) : List Char :=
  ((l.dropWhile Char.isWhitespace).reverse.dropWhile Char.isWhitespace).reverse

/-- Python `s.strip()`. -/
def pyStrip (s : String) : String :=
  ⟨stripChars s.data⟩

/-- Python `s.upper()` (ASCII case mapping suffices for the item ids here). -/
def pyUpper (s : String) : String :=
  ⟨s.data.map Char.toUpper⟩

/-- Value of a nonempty all-digit character list, `none` otherwise. -/
def digitsVal? (l : List Char) : Option Nat :=
  if l ≠ [] ∧ l.all Char.isDigit then
    some (l.foldl (fun a c => a * 10 + (c.toNat - 48)) 0)
  else none

/-- `int(s)` on a request string: optional surrounding whitespace, an
optional sign, then at least one decimal digit; anything else raises
`ValueError` (modelled as `none`). -/
def parseIntPy? (s : String) : Option Int :=
  match stripChars s.data with
  | '-' :: rest => (digitsVal? rest).map (fun n => -(n : Int))
  | '+' :: rest => (digitsVal? rest).map (fun n => (n : Int))
  | l => (digitsVal? l).map (fun n => (n : Int))

example : parseIntPy? " 10 " = some 10 := by decide
example : parseIntPy? "-3" = some (-3) := by decide
example : parseIntPy? "0" = some 0 := by decide
example : parseIntPy? "" = none := by decide
example : parseIntPy? "3a" = none := by decide
example : pyUpper (pyStrip " item001 ") = "ITEM001" := by decide

/-! ## Access gate

`login_required` runs first: it rejects when `'user' not in session`
(redirect to login) and also when the session's username no longer resolves
to a `User` row (session popped, redirect to login). `role_required` then
rejects when the **session's** role is not in the route's allowed list
(redirect to `/unauthorized`, HTTP 403). Otherwise the wrapped handler runs. -/

/-- The composed `@login_required` + `@role_required(allowed)` guard applied
to every API route. Returns the admitted session identity, or the
authentication/authorization error. -/
def gate (st : DBState) (sess : Option SessionUser) (allowed : List Role) :
    Except ApiError SessionUser :=
  match sess with
  | none => .error .Unauthenticated
  | some u =>
    if (findUser st u.username).isNone then .error .Unauthenticated
    else if u.role ∈ allowed then .ok u
    else .error .Forbidden

/-- `role_required(['admin', 'manajer'])` on `api_dashboard_summary`. -/
def api_dashboard_summary_roles : List Role := [.admin, .manajer]

/-- `role_required(['admin', 'manajer', 'operator'])` on `api_get_inventory`. -/
def api_get_inventory_roles : List Role := [.admin, .manajer, .operator]

/-- `role_required(['admin', 'manajer', 'operator'])` on `api_get_inventory_item`. -/
def api_get_inventory_item_roles : List Role := [.admin, .manajer, .operator]

/-- `role_required(['admin', 'operator'])` on `api_add_inventory_item`. -/
def api_add_inventory_item_roles : List Role := [.admin, .operator]

/-- `role_required(['admin'])` on `api_update_inventory_item`. -/
def api_update_inventory_item_roles : List Role := [.admin]

/-- `role_required(['admin'])` on `api_delete_inventory_item`. -/
def api_delete_inventory_item_roles : List Role := [.admin]

/-- `role_required(['admin'])` on `api_get_users`. -/
def api_get_users_roles : List Role := [.admin]

/-- `role_required(['admin'])` on `api_add_user`. -/
def api_add_user_roles : List Role := [.admin]

/-- `role_required(['admin'])` on `api_update_user`. -/
def api_update_user_roles : List Role := [.admin]

/-- `role_required(['admin'])` on `api_delete_user`. -/
def api_delete_user_roles : List Role := [.admin]

/-- `role_required(['admin', 'manajer', 'operator'])` on `api_get_transactions`. -/
def api_get_transactions_roles : List Role := [.admin, .manajer, .operator]

/-- `role_required(['admin', 'operator'])` on `api_add_incoming_transaction`. -/
def api_add_incoming_transaction_roles : List Role := [.admin, .operator]

/-- `role_required(['admin', 'operator'])` on `api_add_outgoing_transaction`. -/
def api_add_outgoing_transaction_roles : List Role := [.admin, .operator]

/-- The guard lists of all the API routes in the role matrix. -/
def allGateRoleLists : List (List Role) :=
  [api_dashboard_summary_roles, api_get_inventory_roles,
   api_get_inventory_item_roles, api_add_inventory_item_roles,
   api_update_inventory_item_roles, api_delete_inventory_item_roles,
   api_get_users_roles, api_add_user_roles, api_update_user_roles,
   api_delete_user_roles, api_get_transactions_roles,
   api_add_incoming_transaction_roles, api_add_outgoing_transaction_roles]

/-! ## Login -/

/-- The observable outcome of a `POST /login` request (the flash message,
its category, and what is rendered / where the client is redirected). -/
inductive LoginResult where
  | missingFields (flash : String)
  | failure (flash : String)
  | success (sess : SessionUser) (flash : String)
deriving Repr, DecidableEq

/-- The `POST` branch of the `login` view, for a client that is not already
logged in. `check` models `check_password_hash`. The `user and
user.check_password(password)` guard short-circuits, so the no-such-user run
and the wrong-password run are modelled as the two distinct branches they
are in the code; both fall to the shared `else`. -/
def login (check : String → String → Bool) (st : DBState)
    (username password : String) : LoginResult :=
  if username = "" ∨ password = "" then
    .missingFields "Username dan password harus diisi."
  else
    match findUser st username with
    | none => .failure "Username atau password salah."
    | some user =>
      if check user.password_hash password then
        .success ⟨user.username, user.role, user.name⟩ "Login berhasil!"
      else .failure "Username atau password salah."

/-! ## Inventory item creation -/

/-- `POST /api/inventory` (`api_add_inventory_item`), after the gate.
Request JSON fields arrive as strings; absent fields are `""` (both are
falsy in the `not all([...])` check). `current_user` is
`session['user']['username']`. -/
def api_add_inventory_item (st : DBState) (now : Nat) (current_user : String)
    (item_id name category quantity_str : String) :
    Except ApiError InventoryItem × DBState :=
  if item_id = "" ∨ name = "" ∨ category = "" ∨ quantity_str = "" then
    (.error (.ValidationError "ID Item, Nama, Kategori, dan Jumlah Awal harus diisi"), st)
  else
    let item_id := pyUpper (pyStrip item_id)
    if item_id = "" then
      (.error (.ValidationError "ID Item tidak boleh kosong"), st)
    else
      match parseIntPy? quantity_str with
      | none =>
        (.error (.ValidationError "Jumlah Awal harus berupa angka bulat non-negatif"), st)
      | some quantity =>
        if quantity < 0 then
          (.error (.ValidationError "Jumlah Awal tidak boleh negatif"), st)
        else if (findItem st item_id).isSome then
          (.error .Conflict, st)
        else if current_user = "" then
          (.error .Unauthenticated, st)
        else
          let new_item : InventoryItem :=
            { id := item_id, name := pyStrip name, quantity := quantity,
              category := pyStrip category, added_by := current_user,
              last_update := now }
          (.ok new_item, { st with items := st.items ++ [new_item] })

/-! ## Ledger: incoming and outgoing transactions -/

/-- `POST /api/transactions/incoming` (`api_add_incoming_transaction`),
after the gate, with the quantity already through `int()` (the string
parse is `parseIntPy?`, applied upstream; a failed parse is a
`ValidationError` and leaves the state untouched). -/
def api_add_incoming_transaction (st : DBState) (now : Nat)
    (current_user : String) (item_id : String) (quantity : Int)
    (notes : String) : Except ApiError Transaction × DBState :=
  if item_id = "" then
    (.error (.ValidationError "ID Item dan Jumlah Masuk harus diisi"), st)
  else if quantity ≤ 0 then
    (.error (.ValidationError "Jumlah Masuk harus lebih dari 0"), st)
  else
    match findItem st item_id with
    | none => (.error .NotFound, st)
    | some _ =>
      if current_user = "" then (.error .Unauthenticated, st)
      else
        let tx : Transaction :=
          { id := st.next_tx_id, type := .masuk, item_id := item_id,
            quantity := quantity, user_username := current_user,
            timestamp := now, notes := notes }
        (.ok tx,
         { st with
             items := st.items.map (fun x =>
               if x.id == item_id then
                 { x with quantity := x.quantity + quantity, last_update := now }
               else x),
             transactions := st.transactions ++ [tx],
             next_tx_id := st.next_tx_id + 1 })

/-- `POST /api/transactions/outgoing` (`api_add_outgoing_transaction`),
after the gate, with the quantity already through `int()`. The stock check
`item.quantity < quantity` comes after the item lookup and before the
session check, exactly as in the handler. -/
def api_add_outgoing_transaction (st : DBState) (now : Nat)
    (current_user : String) (item_id : String) (quantity : Int)
    (notes : String) : Except ApiError Transaction × DBState :=
  if item_id = "" then
    (.error (.ValidationError "ID Item dan Jumlah Keluar harus diisi"), st)
  else if quantity ≤ 0 then
    (.error (.ValidationError "Jumlah Keluar harus lebih dari 0"), st)
  else
    match findItem st item_id with
    | none => (.error .NotFound, st)
    | some item =>
      if item.quantity < quantity then (.error .InsufficientStock, st)
      else if current_user = "" then (.error .Unauthenticated, st)
      else
        let tx : Transaction :=
          { id := st.next_tx_id, type := .keluar, item_id := item_id,
            quantity := quantity, user_username := current_user,
            timestamp := now, notes := notes }
        (.ok tx,
         { st with
             items := st.items.map (fun x =>
               if x.id == item_id then
                 { x with quantity := x.quantity - quantity, last_update := now }
               else x),
             transactions := st.transactions ++ [tx],
             next_tx_id := st.next_tx_id + 1 })

/-! ## Inventory item update and delete -/

/-- The partial-update JSON body of `PUT /api/inventory/{id}`: a field set
to `none` models a key absent from the payload (`if 'name' in data`).
The quantity arrives through `int(data['quantity'])`, modelled as the
already-parsed `Int` (a failed parse is a `ValidationError` that leaves the
state untouched, like every other error return). -/
structure ItemUpdatePayload where
  upd_name : Option String
  upd_category : Option String
  upd_quantity : Option Int
deriving Repr, DecidableEq

/-- `PUT /api/inventory/{id}` (`api_update_inventory_item`), after the gate.
Mirrors the handler: each present field is compared against the current
value and assigned only when different, tracked by the `updated` flag;
`db.session.commit()` runs only if `updated`, and the `onupdate` hook on
`last_update` refreshes the timestamp exactly when the row is written. -/
def api_update_inventory_item (st : DBState) (now : Nat) (item_id : String)
    (p : ItemUpdatePayload) : Except ApiError InventoryItem × DBState :=
  match findItem st item_id with
  | none => (.error .NotFound, st)
  | some item0 =>
    let nameStep : Except ApiError (InventoryItem × Bool) :=
      match p.upd_name with
      | none => .ok (item0, false)
      | some n =>
        let n := pyStrip n
        if n = "" then .error (.ValidationError "Nama item tidak boleh kosong")
        else if item0.name ≠ n then .ok ({ item0 with name := n }, true)
        else .ok (item0, false)
    match nameStep with
    | .error e => (.error e, st)
    | .ok (item1, upd1) =>
      let categoryStep : Except ApiError (InventoryItem × Bool) :=
        match p.upd_category with
        | none => .ok (item1, upd1)
        | some c =>
          let c := pyStrip c
          if c = "" then .error (.ValidationError "Kategori tidak boleh kosong")
          else if item1.category ≠ c then .ok ({ item1 with category := c }, true)
          else .ok (item1, upd1)
      match categoryStep with
      | .error e => (.error e, st)
      | .ok (item2, upd2) =>
        let quantityStep : Except ApiError (InventoryItem × Bool) :=
          match p.upd_quantity with
          | none => .ok (item2, upd2)
          | some q =>
            if q < 0 then .error (.ValidationError "Jumlah tidak boleh negatif")
            else if item2.quantity ≠ q then .ok ({ item2 with quantity := q }, true)
            else .ok (item2, upd2)
        match quantityStep with
        | .error e => (.error e, st)
        | .ok (item3, upd3) =>
          if upd3 then
            let item4 := { item3 with last_update := now }
            (.ok item4,
             { st with items := st.items.map (fun x => if x.id == item_id then item4 else x) })
          else (.ok item3, st)

/-- `DELETE /api/inventory/{id}` (`api_delete_inventory_item`), after the
gate: 404 when absent, blocked-by-reference 400 (`Conflict`) when any
transaction row references the item, otherwise the row is deleted. -/
def api_delete_inventory_item (st : DBState) (item_id : String) :
    Except ApiError Unit × DBState :=
  match findItem st item_id with
  | none => (.error .NotFound, st)
  | some _ =>
    if (st.transactions.filter (fun t => t.item_id == item_id)).length > 0 then
      (.error .Conflict, st)
    else
      (.ok (), { st with items := st.items.filter (fun x => !(x.id == item_id)) })

/-! ## User update and delete -/

/-- The partial-update JSON body of `PUT /api/users/{username}`. The role
value has already passed the `role in allowed_roles` whitelist (which every
`Role` does); `upd_password = some ""` is the falsy-password case that the
`data['password']` truthiness check skips. -/
structure UserUpdatePayload where
  upd_name : Option String
  upd_role : Option Role
  upd_password : Option String
deriving Repr, DecidableEq

/-- `PUT /api/users/{username}` (`api_update_user`), after the gate.
`session_username` is `session['user']['username']`; `hashPw` models
`generate_password_hash`. The self-demotion guard tests the **stored**
`user.role == 'admin'` together with `username == session username` and
`role != 'admin'`. -/
def api_update_user (hashPw : String → String) (st : DBState)
    (session_username username : String) (p : UserUpdatePayload) :
    Except ApiError User × DBState :=
  match findUser st username with
  | none => (.error .NotFound, st)
  | some user0 =>
    let nameStep : Except ApiError (User × Bool) :=
      match p.upd_name with
      | none => .ok (user0, false)
      | some n =>
        let n := pyStrip n
        if n = "" then .error (.ValidationError "Nama tidak boleh kosong")
        else if user0.name ≠ n then .ok ({ user0 with name := n }, true)
        else .ok (user0, false)
    match nameStep with
    | .error e => (.error e, st)
    | .ok (user1, upd1) =>
      let roleStep : Except ApiError (User × Bool) :=
        match p.upd_role with
        | none => .ok (user1, upd1)
        | some r =>
          if username = session_username ∧ user1.role = .admin ∧ r ≠ .admin then
            .error .InvalidOperation
          else if user1.role ≠ r then .ok ({ user1 with role := r }, true)
          else .ok (user1, upd1)
      match roleStep with
      | .error e => (.error e, st)
      | .ok (user2, upd2) =>
        let passStep : User × Bool :=
          match p.upd_password with
          | some pw =>
            if pw ≠ "" then ({ user2 with password_hash := hashPw pw }, true)
            else (user2, upd2)
          | none => (user2, upd2)
        let user3 := passStep.1
        if passStep.2 then
          (.ok user3,
           { st with users := st.users.map (fun u => if u.username == username then user3 else u) })
        else (.ok user3, st)

/-- `DELETE /api/users/{username}` (`api_delete_user`), after the gate:
404 when absent; the self-deletion guard compares against the session
username; then `db.session.delete(user); db.session.commit()`. The
explicit transaction-count check in the handler is commented out, so when
transaction rows reference the user the outcome comes from the ORM:
`User.transactions` is a plain relationship (default cascade, no
`passive_deletes`), so the flush first issues
`UPDATE transaction SET user_username=NULL` for the referencing rows,
which violates `nullable=False` and raises an IntegrityError whose message
reads "Column 'user_username' cannot be null". That message does not
contain the substring `"foreign key constraint"` the `except` branch looks
for, so the handler falls through to the generic 500
("Gagal menghapus pengguna") — `StoreFailure`, not the
blocked-by-reference 400 — after `db.session.rollback()` (state
unchanged). -/
def api_delete_user (st : DBState) (session_username username : String) :
    Except ApiError Unit × DBState :=
  match findUser st username with
  | none => (.error .NotFound, st)
  | some _ =>
    if username = session_username then (.error .SelfDeletion, st)
    else if (st.transactions.filter (fun t => t.user_username == username)).length > 0 then
      (.error .StoreFailure, st)
    else
      (.ok (), { st with users := st.users.filter (fun u => !(u.username == username)) })

/-! ## Transaction listing

`GET /api/transactions` runs `query.order_by(Transaction.timestamp.desc())`
over the (optionally type-filtered) transaction table. The database
contract for `ORDER BY timestamp DESC` with no secondary sort key is: the
result is *some* permutation of the rows in which timestamps are
nonincreasing — MySQL gives no guarantee on the relative order of rows with
equal timestamps. The handler is therefore modelled as a relation between
the store and the permitted result lists. -/

/-- The rows the query ranges over: `Transaction.query`, restricted with
`filter_by(type=...)` only when `request.args.get('type')` is literally
`'masuk'` or `'keluar'`. -/
def txTypeFilter (st : DBState) (type_arg : Option String) : List Transaction :=
  match type_arg with
  | some t =>
    if t = "masuk" ∨ t = "keluar" then
      st.transactions.filter (fun tx => txTypeStr tx.type == t)
    else st.transactions
  | none => st.transactions

/-- What `ORDER BY timestamp DESC` (no secondary key) guarantees about a
result: a permutation of the input with nonincreasing timestamps. Nothing
more — equal-timestamp rows may come back in any order. -/
def orderedByTimestampDesc (input output : List Transaction) : Prop :=
  output.Perm input ∧ output.Pairwise (fun a b => b.timestamp ≤ a.timestamp)

/-- `GET /api/transactions?type=` (`api_get_transactions`), after the gate:
the relation between the store, the `type` query argument, and the result
lists the handler may return. The handler serializes each row to a JSON
object one-for-one, so a result is modelled as the row list itself. -/
def api_get_transactions (st : DBState) (type_arg : Option String)
    (output : List Transaction) : Prop :=
  orderedByTimestampDesc (txTypeFilter st type_arg) output

/-- Insert a transaction into a descending-timestamp-sorted list (used only
to exhibit one permitted `ORDER BY` result, i.e. that the contract is
satisfiable). -/
def insertTxDesc (x : Transaction) : List Transaction → List Transaction
  | [] => [x]
  | y :: ys =>
    if x.timestamp < y.timestamp then y :: insertTxDesc x ys
    else x :: y :: ys

/-- One concrete descending-timestamp arrangement of a list (a witness that
`orderedByTimestampDesc` is always satisfiable). -/
def sortByTimestampDesc : List Transaction → List Transaction
  | [] => []
  | x :: xs => insertTxDesc x (sortByTimestampDesc xs)

/-! ## Replay of stock operations (for the ledger invariant) -/

/-- One request against the ledger: direction, parsed quantity, the acting
session username, the notes field, and the request's `datetime.utcnow()`. -/
structure StockOp where
  dir : TxType
  qty : Int
  actor : String
  notes : String
  tstamp : Nat
deriving Repr, DecidableEq

/-- Run one incoming/outgoing request against the state; `none` when the
handler returned an error (in which case the state was unchanged). -/
def applyOp (item_id : String) (op : StockOp) (st : DBState) : Option DBState :=
  match op.dir with
  | .masuk =>
    match api_add_incoming_transaction st op.tstamp op.actor item_id op.qty op.notes with
    | (.ok _, st') => some st'
    | (.error _, _) => none
  | .keluar =>
    match api_add_outgoing_transaction st op.tstamp op.actor item_id op.qty op.notes with
    | (.ok _, st') => some st'
    | (.error _, _) => none

/-- Replay a sequence of requests; `some` exactly when every one succeeds. -/
def replay (item_id : String) : List StockOp → DBState → Option DBState
  | [], st => some st
  | op :: ops, st =>
    match applyOp item_id op st with
    | some st' => replay item_id ops st'
    | none => none

/-- Σ of the quantities of the incoming operations of a sequence. -/
def sumIncoming : List StockOp → Int
  | [] => 0
  | op :: ops => (if op.dir = .masuk then op.qty else 0) + sumIncoming ops

/-- Σ of the quantities of the outgoing operations of a sequence. -/
def sumOutgoing : List StockOp → Int
  | [] => 0
  | op :: ops => (if op.dir = .keluar then op.qty else 0) + sumOutgoing ops

/-! ## Helper lemmas -/

theorem find?_map_ite {l : List InventoryItem} {iid : String}
    {g : InventoryItem → InventoryItem} (hg : ∀ x, (g x).id = x.id) :
    (l.map (fun x => if x.id == iid then g x else x)).find? (fun x => x.id == iid)
      = (l.find? (fun x => x.id == iid)).map g := by
  induction l with
  | nil => rfl
  | cons a l ih =>
    by_cases h : a.id = iid
    · simp [List.find?, h, hg]
    · have h3 : (a.id == iid) = false := beq_eq_false_iff_ne.mpr h
      simpa [List.find?, h, h3, -List.find?_map] using ih

theorem find?_append_of_none {α : Type} {p : α → Bool} {l1 l2 : List α}
    (h : l1.find? p = none) : (l1 ++ l2).find? p = l2.find? p := by
  induction l1 with
  | nil => rfl
  | cons a l ih =>
    simp only [List.find?] at h ⊢
    cases hp : p a with
    | true => simp [hp] at h
    | false =>
      simp only [hp] at h ⊢
      exact ih h

theorem incoming_ok_items {st : DBState} {now : Nat} {u iid n : String}
    {q : Int} {tx : Transaction} {st' : DBState}
    (h : api_add_incoming_transaction st now u iid q n = (.ok tx, st')) :
    0 < q ∧
    st'.items = st.items.map (fun x =>
      if x.id == iid then { x with quantity := x.quantity + q, last_update := now }
      else x) := by
  unfold api_add_incoming_transaction at h
  split at h
  · simp at h
  · split at h
    · simp at h
    · split at h
      · simp at h
      · split at h
        · simp at h
        · rw [Prod.mk.injEq] at h
          obtain ⟨-, h2⟩ := h
          subst h2
          refine ⟨by omega, rfl⟩

theorem outgoing_ok_items {st : DBState} {now : Nat} {u iid n : String}
    {q : Int} {tx : Transaction} {st' : DBState}
    (h : api_add_outgoing_transaction st now u iid q n = (.ok tx, st')) :
    0 < q ∧
    (∃ item, findItem st iid = some item ∧ q ≤ item.quantity) ∧
    st'.items = st.items.map (fun x =>
      if x.id == iid then { x with quantity := x.quantity - q, last_update := now }
      else x) := by
  unfold api_add_outgoing_transaction at h
  split at h
  · simp at h
  · split at h
    · simp at h
    · split at h
      · simp at h
      · next item hfound =>
        split at h
        · simp at h
        · split at h
          · simp at h
          · rw [Prod.mk.injEq] at h
            obtain ⟨-, h2⟩ := h
            subst h2
            refine ⟨by omega, ⟨item, hfound, by omega⟩, rfl⟩

theorem applyOp_quantity {iid : String} {op : StockOp} {st st' : DBState}
    {it : InventoryItem} (hfind : findItem st iid = some it)
    (h : applyOp iid op st = some st') :
    ∃ it', findItem st' iid = some it' ∧
      it'.quantity = it.quantity + (if op.dir = .masuk then op.qty else -op.qty) ∧
      (0 ≤ it.quantity → 0 ≤ it'.quantity) := by
  unfold applyOp at h
  cases hdir : op.dir with
  | masuk =>
    rw [hdir] at h
    rcases hres : api_add_incoming_transaction st op.tstamp op.actor iid op.qty op.notes
      with ⟨res, st2⟩
    rw [hres] at h
    cases res with
    | error e => simp at h
    | ok tx =>
      have h2 : st2 = st' := by simpa using h
      subst h2
      obtain ⟨hq, hitems⟩ := incoming_ok_items hres
      refine ⟨{ it with quantity := it.quantity + op.qty, last_update := op.tstamp },
        ?_, by simp, fun h0 => by simp; omega⟩
      unfold findItem at hfind ⊢
      rw [hitems,
        find?_map_ite (g := fun x =>
          { x with quantity := x.quantity + op.qty, last_update := op.tstamp })
          (fun x => rfl),
        hfind]
      rfl
  | keluar =>
    rw [hdir] at h
    rcases hres : api_add_outgoing_transaction st op.tstamp op.actor iid op.qty op.notes
      with ⟨res, st2⟩
    rw [hres] at h
    cases res with
    | error e => simp at h
    | ok tx =>
      have h2 : st2 = st' := by simpa using h
      subst h2
      obtain ⟨hq, ⟨item, hfound, hle⟩, hitems⟩ := outgoing_ok_items hres
      have hit : it = item := by
        rw [hfind] at hfound
        injection hfound
      subst hit
      refine ⟨{ it with quantity := it.quantity - op.qty, last_update := op.tstamp },
        ?_, by simp [sub_eq_add_neg], fun _ => by simp; omega⟩
      unfold findItem at hfind ⊢
      rw [hitems,
        find?_map_ite (g := fun x =>
          { x with quantity := x.quantity - op.qty, last_update := op.tstamp })
          (fun x => rfl),
        hfind]
      rfl

theorem replay_quantity (iid : String) (ops : List StockOp) :
    ∀ st st' it, findItem st iid = some it → replay iid ops st = some st' →
    ∃ it', findItem st' iid = some it' ∧
      it'.quantity = it.quantity + sumIncoming ops - sumOutgoing ops ∧
      (0 ≤ it.quantity → 0 ≤ it'.quantity) := by
  induction ops with
  | nil =>
    intro st st' it hfind h
    have h2 : st = st' := by simpa [replay] using h
    subst h2
    exact ⟨it, hfind, by simp [sumIncoming, sumOutgoing], fun h0 => h0⟩
  | cons op ops ih =>
    intro st st' it hfind h
    simp only [replay] at h
    cases happ : applyOp iid op st with
    | none => rw [happ] at h; simp at h
    | some st1 =>
      rw [happ] at h
      obtain ⟨it1, hfind1, hq1, hpos1⟩ := applyOp_quantity hfind happ
      obtain ⟨it', hfind', hq', hpos'⟩ := ih st1 st' it1 hfind1 h
      refine ⟨it', hfind', ?_, fun h0 => hpos' (hpos1 h0)⟩
      rw [hq', hq1]
      simp only [sumIncoming, sumOutgoing]
      cases op.dir <;> simp <;> ring

theorem replay_append (iid : String) (a b : List StockOp) :
    ∀ st, replay iid (a ++ b) st
      = (replay iid a st).bind (fun st1 => replay iid b st1) := by
  induction a with
  | nil => intro st; rfl
  | cons op a ih =>
    intro st
    simp only [List.cons_append, replay]
    cases applyOp iid op st with
    | none => rfl
    | some st1 => exact ih st1

theorem create_ok_facts {st : DBState} {now : Nat} {u iid nm cat qs : String}
    {it : InventoryItem} {st0 : DBState}
    (h : api_add_inventory_item st now u iid nm cat qs = (.ok it, st0)) :
    findItem st0 it.id = some it ∧ 0 ≤ it.quantity ∧
    it.id = pyUpper (pyStrip iid) ∧ st0.items = st.items ++ [it] := by
  unfold api_add_inventory_item at h
  dsimp only at h
  split at h
  · simp at h
  · split at h
    · simp at h
    · next hid =>
      split at h
      · simp at h
      · next q hparse =>
        split at h
        · simp at h
        · next hneg =>
          split at h
          · simp at h
          · next hns =>
            split at h
            · simp at h
            · next hu =>
              rw [Prod.mk.injEq] at h
              obtain ⟨h1, h2⟩ := h
              injection h1 with h1
              subst h1
              subst h2
              have hnone : st.items.find?
                  (fun x => x.id == pyUpper (pyStrip iid)) = none := by
                simpa [findItem, Option.not_isSome_iff_eq_none] using hns
              refine ⟨?_, by simpa using hneg, rfl, rfl⟩
              show (st.items ++ [_]).find? _ = _
              rw [find?_append_of_none hnone]
              simp [List.find?]

/-- **C1.** For every item and every sequence of successful incoming
(`api_add_incoming_transaction`) and outgoing
(`api_add_outgoing_transaction`) operations on that item, the item's
quantity after the sequence equals its seed quantity at creation
(`it.quantity`, the quantity `api_add_inventory_item` stored) plus the sum
of the incoming quantities minus the sum of the outgoing quantities, and
the quantity is nonnegative after every operation of the sequence (every
prefix of the replay leaves the item with `0 ≤ quantity`). -/
theorem ledger_replay_invariant
    (st : DBState) (now : Nat) (u iid nm cat qs : String)
    (it : InventoryItem) (st0 : DBState) (ops : List StockOp) (st' : DBState)
    (hcreate : api_add_inventory_item st now u iid nm cat qs = (.ok it, st0))
    (hreplay : replay it.id ops st0 = some st') :
    (∃ it', findItem st' it.id = some it' ∧
       it'.quantity = it.quantity + sumIncoming ops - sumOutgoing ops ∧
       0 ≤ it'.quantity) ∧
    (∀ pre suf, ops = pre ++ suf →
       ∃ stp itp, replay it.id pre st0 = some stp ∧
         findItem stp it.id = some itp ∧ 0 ≤ itp.quantity) := by
  obtain ⟨hfind0, hq0, -, -⟩ := create_ok_facts hcreate
  constructor
  · obtain ⟨it', h1, h2, h3⟩ := replay_quantity it.id ops st0 st' it hfind0 hreplay
    exact ⟨it', h1, h2, h3 hq0⟩
  · intro pre suf hsplit
    subst hsplit
    rw [replay_append] at hreplay
    cases hpre : replay it.id pre st0 with
    | none => rw [hpre] at hreplay; simp at hreplay
    | some stp =>
      obtain ⟨itp, h1, h2, h3⟩ := replay_quantity it.id pre st0 stp it hfind0 hpre
      exact ⟨stp, itp, rfl, h1, h3 hq0⟩

theorem ledger_replay_invariant_witness :
    (∃ it', findItem
        ⟨[], [⟨"ITEM001", "Barang", 8, "Elektronik", "admin", 2⟩],
         [⟨0, .masuk, "ITEM001", 5, "admin", 1, ""⟩,
          ⟨1, .keluar, "ITEM001", 7, "admin", 2, ""⟩], 2⟩ "ITEM001" = some it' ∧
       it'.quantity = 10
         + sumIncoming [⟨.masuk, 5, "admin", "", 1⟩, ⟨.keluar, 7, "admin", "", 2⟩]
         - sumOutgoing [⟨.masuk, 5, "admin", "", 1⟩, ⟨.keluar, 7, "admin", "", 2⟩] ∧
       0 ≤ it'.quantity) ∧
    (∀ pre suf,
       ([⟨.masuk, 5, "admin", "", 1⟩, ⟨.keluar, 7, "admin", "", 2⟩] : List StockOp)
         = pre ++ suf →
       ∃ stp itp, replay "ITEM001" pre
           ⟨[], [⟨"ITEM001", "Barang", 10, "Elektronik", "admin", 0⟩], [], 0⟩ = some stp ∧
         findItem stp "ITEM001" = some itp ∧ 0 ≤ itp.quantity) :=
  ledger_replay_invariant ⟨[], [], [], 0⟩ 0 "admin" " item001 " "Barang" "Elektronik" "10"
    ⟨"ITEM001", "Barang", 10, "Elektronik", "admin", 0⟩
    ⟨[], [⟨"ITEM001", "Barang", 10, "Elektronik", "admin", 0⟩], [], 0⟩
    [⟨.masuk, 5, "admin", "", 1⟩, ⟨.keluar, 7, "admin", "", 2⟩]
    ⟨[], [⟨"ITEM001", "Barang", 8, "Elektronik", "admin", 2⟩],
     [⟨0, .masuk, "ITEM001", 5, "admin", 1, ""⟩,
      ⟨1, .keluar, "ITEM001", 7, "admin", 2, ""⟩], 2⟩
    (by decide) (by decide)

/-- **C2.** For every item and every requested outgoing quantity strictly
greater than the item's current stock, `api_add_outgoing_transaction` fails
with `InsufficientStock` and returns the state unchanged: the item's
quantity, its `last_update`, and the transaction table are exactly as
before the call (no partial state is observable). -/
theorem outgoing_insufficient_stock
    (st : DBState) (now : Nat) (u item_id : String) (qty : Int) (notes : String)
    (item : InventoryItem)
    (hfind : findItem st item_id = some item)
    (hid : item_id ≠ "")
    (hq0 : 0 ≤ item.quantity)
    (hgt : item.quantity < qty) :
    api_add_outgoing_transaction st now u item_id qty notes
      = (.error .InsufficientStock, st) := by
  unfold api_add_outgoing_transaction
  rw [if_neg hid, if_neg (show ¬qty ≤ 0 by omega), hfind]
  dsimp only
  rw [if_pos hgt]

theorem outgoing_insufficient_stock_witness :
    api_add_outgoing_transaction
      ⟨[], [⟨"ITEM001", "Barang", 3, "Kat", "admin", 0⟩], [], 0⟩ 5 "admin" "ITEM001" 5 ""
      = (.error .InsufficientStock,
         ⟨[], [⟨"ITEM001", "Barang", 3, "Kat", "admin", 0⟩], [], 0⟩) :=
  outgoing_insufficient_stock
    ⟨[], [⟨"ITEM001", "Barang", 3, "Kat", "admin", 0⟩], [], 0⟩ 5 "admin" "ITEM001" 5 ""
    ⟨"ITEM001", "Barang", 3, "Kat", "admin", 0⟩
    (by decide) (by decide) (by decide) (by decide)

/-- **C3.** The role matrix of §4.1 is exact. For every guarded operation
(every allowed-role list in `allGateRoleLists`) and every request: with no
session the gate fails `Unauthenticated`; with a session whose username
still resolves to a user, the gate admits iff the session role is in the
operation's allowed-role set and fails `Forbidden` otherwise; with a
session whose username no longer resolves, the gate fails
`Unauthenticated`. The allowed-role lists are exactly the matrix: dashboard
summary admin+manajer; list/view inventory and list transactions
admin+manajer+operator; create item and record incoming/outgoing
admin+operator; update/delete item and all user management admin only. -/
theorem role_matrix_exact
    (L : List Role) (_hL : L ∈ allGateRoleLists) (st : DBState) (u : SessionUser)
    (hex : (findUser st u.username).isSome) :
    gate st none L = .error .Unauthenticated ∧
    gate st (some u) L = (if u.role ∈ L then .ok u else .error .Forbidden) ∧
    (∀ st2 : DBState, (findUser st2 u.username).isNone →
       gate st2 (some u) L = .error .Unauthenticated) ∧
    api_dashboard_summary_roles = [.admin, .manajer] ∧
    api_get_inventory_roles = [.admin, .manajer, .operator] ∧
    api_get_inventory_item_roles = [.admin, .manajer, .operator] ∧
    api_get_transactions_roles = [.admin, .manajer, .operator] ∧
    api_add_inventory_item_roles = [.admin, .operator] ∧
    api_add_incoming_transaction_roles = [.admin, .operator] ∧
    api_add_outgoing_transaction_roles = [.admin, .operator] ∧
    api_update_inventory_item_roles = [.admin] ∧
    api_delete_inventory_item_roles = [.admin] ∧
    api_get_users_roles = [.admin] ∧
    api_add_user_roles = [.admin] ∧
    api_update_user_roles = [.admin] ∧
    api_delete_user_roles = [.admin] := by
  refine ⟨rfl, ?_, ?_, rfl, rfl, rfl, rfl, rfl, rfl, rfl, rfl, rfl, rfl, rfl, rfl, rfl⟩
  · have hfalse : (findUser st u.username).isNone = false := by
      cases hcase : findUser st u.username with
      | none => rw [hcase] at hex; simp at hex
      | some w => rfl
    unfold gate
    dsimp only
    rw [hfalse]
    simp
  · intro st2 h2
    unfold gate
    dsimp only
    rw [h2]
    simp

theorem role_matrix_exact_witness :
    gate ⟨[⟨"admin", "h", .admin, "Admin Utama"⟩], [], [], 0⟩ none
        api_dashboard_summary_roles = .error .Unauthenticated ∧
    gate ⟨[⟨"admin", "h", .admin, "Admin Utama"⟩], [], [], 0⟩
        (some ⟨"admin", .admin, "Admin Utama"⟩) api_dashboard_summary_roles
      = (if (⟨"admin", .admin, "Admin Utama"⟩ : SessionUser).role ∈
            api_dashboard_summary_roles
         then .ok ⟨"admin", .admin, "Admin Utama"⟩ else .error .Forbidden) ∧
    (∀ st2 : DBState,
       (findUser st2 (SessionUser.username ⟨"admin", .admin, "Admin Utama"⟩)).isNone →
       gate st2 (some ⟨"admin", .admin, "Admin Utama"⟩) api_dashboard_summary_roles
         = .error .Unauthenticated) ∧
    api_dashboard_summary_roles = [.admin, .manajer] ∧
    api_get_inventory_roles = [.admin, .manajer, .operator] ∧
    api_get_inventory_item_roles = [.admin, .manajer, .operator] ∧
    api_get_transactions_roles = [.admin, .manajer, .operator] ∧
    api_add_inventory_item_roles = [.admin, .operator] ∧
    api_add_incoming_transaction_roles = [.admin, .operator] ∧
    api_add_outgoing_transaction_roles = [.admin, .operator] ∧
    api_update_inventory_item_roles = [.admin] ∧
    api_delete_inventory_item_roles = [.admin] ∧
    api_get_users_roles = [.admin] ∧
    api_add_user_roles = [.admin] ∧
    api_update_user_roles = [.admin] ∧
    api_delete_user_roles = [.admin] :=
  role_matrix_exact api_dashboard_summary_roles (by decide)
    ⟨[⟨"admin", "h", .admin, "Admin Utama"⟩], [], [], 0⟩
    ⟨"admin", .admin, "Admin Utama"⟩ (by decide)

theorem create_item_nonblank_eval
    (st : DBState) (now : Nat) (u item_id name category quantity_str : String)
    (q : Int) (hparse : parseIntPy? quantity_str = some q)
    (hid : pyUpper (pyStrip item_id) ≠ "") (hname : name ≠ "")
    (hcat : category ≠ "") (hq : 0 ≤ q) (hu : u ≠ "") :
    api_add_inventory_item st now u item_id name category quantity_str =
      if (findItem st (pyUpper (pyStrip item_id))).isSome then
        (.error .Conflict, st)
      else
        (.ok ⟨pyUpper (pyStrip item_id), pyStrip name, q, pyStrip category, u, now⟩,
         { st with items := st.items ++
             [⟨pyUpper (pyStrip item_id), pyStrip name, q, pyStrip category, u, now⟩] }) := by
  have hqs : quantity_str ≠ "" := by
    rintro rfl
    rw [show parseIntPy? "" = none by decide] at hparse
    cases hparse
  have hid0 : item_id ≠ "" := by
    rintro rfl
    exact hid rfl
  unfold api_add_inventory_item
  dsimp only
  rw [if_neg (by push_neg; exact ⟨hid0, hname, hcat, hqs⟩), if_neg hid, hparse]
  dsimp only
  rw [if_neg (show ¬q < 0 by omega), if_neg hu]

/-- **C4.** For every create-item request whose quantity field parses as an
integer `q` and whose session is valid: the id is normalized by trimming
whitespace and uppercasing; the call fails with a `ValidationError` exactly
when some required field is blank (id blank after normalization, name,
category — the quantity field being blank is excluded by the parse) or the
initial quantity is negative; in particular an initial quantity of `0` and
any non-blank name and category are accepted. Past validation it fails with
`Conflict` iff the normalized id already exists, and otherwise creates the
item with the given seed quantity, leaving the rest of the state alone. -/
theorem create_item_contract
    (st : DBState) (now : Nat) (u item_id name category quantity_str : String)
    (q : Int) (hparse : parseIntPy? quantity_str = some q) (hu : u ≠ "") :
    ((∃ m, (api_add_inventory_item st now u item_id name category quantity_str).1
        = .error (.ValidationError m)) ↔
      (pyUpper (pyStrip item_id) = "" ∨ name = "" ∨ category = "" ∨ q < 0)) ∧
    ((pyUpper (pyStrip item_id) ≠ "" ∧ name ≠ "" ∧ category ≠ "" ∧ 0 ≤ q) →
      ((findItem st (pyUpper (pyStrip item_id))).isSome →
        api_add_inventory_item st now u item_id name category quantity_str
          = (.error .Conflict, st)) ∧
      (¬ (findItem st (pyUpper (pyStrip item_id))).isSome →
        api_add_inventory_item st now u item_id name category quantity_str
          = (.ok ⟨pyUpper (pyStrip item_id), pyStrip name, q, pyStrip category, u, now⟩,
             { st with items := st.items ++
                 [⟨pyUpper (pyStrip item_id), pyStrip name, q, pyStrip category, u, now⟩] }))) := by
  have hqs : quantity_str ≠ "" := by
    rintro rfl
    rw [show parseIntPy? "" = none by decide] at hparse
    cases hparse
  constructor
  · constructor
    · intro ⟨m, hm⟩
      by_contra hcond
      push_neg at hcond
      obtain ⟨h1, h2, h3, h4⟩ := hcond
      rw [create_item_nonblank_eval st now u item_id name category quantity_str q
        hparse h1 h2 h3 (by omega) hu] at hm
      split at hm <;> simp at hm
    · intro hcond
      by_cases c1 : item_id = "" ∨ name = "" ∨ category = "" ∨ quantity_str = ""
      · refine ⟨"ID Item, Nama, Kategori, dan Jumlah Awal harus diisi", ?_⟩
        unfold api_add_inventory_item
        rw [if_pos c1]
      · push_neg at c1
        obtain ⟨c1a, c1b, c1c, c1d⟩ := c1
        by_cases c2 : pyUpper (pyStrip item_id) = ""
        · refine ⟨"ID Item tidak boleh kosong", ?_⟩
          unfold api_add_inventory_item
          dsimp only
          rw [if_neg (by push_neg; exact ⟨c1a, c1b, c1c, c1d⟩), if_pos c2]
        · have hql : q < 0 := by
            rcases hcond with h | h | h | h
            · exact absurd h c2
            · exact absurd h c1b
            · exact absurd h c1c
            · exact h
          refine ⟨"Jumlah Awal tidak boleh negatif", ?_⟩
          unfold api_add_inventory_item
          dsimp only
          rw [if_neg (by push_neg; exact ⟨c1a, c1b, c1c, c1d⟩), if_neg c2, hparse]
          dsimp only
          rw [if_pos hql]
  · intro ⟨h1, h2, h3, h4⟩
    rw [create_item_nonblank_eval st now u item_id name category quantity_str q
      hparse h1 h2 h3 h4 hu]
    constructor
    · intro hs
      rw [if_pos hs]
    · intro hs
      rw [if_neg hs]

theorem create_item_contract_witness :
    ((∃ m, (api_add_inventory_item ⟨[], [], [], 0⟩ 7 "op1" " widget9 " "Widget" "Alat" "0").1
        = .error (.ValidationError m)) ↔
      (pyUpper (pyStrip " widget9 ") = "" ∨ "Widget" = "" ∨ "Alat" = "" ∨ (0 : Int) < 0)) ∧
    ((pyUpper (pyStrip " widget9 ") ≠ "" ∧ "Widget" ≠ "" ∧ "Alat" ≠ "" ∧ (0 : Int) ≤ 0) →
      ((findItem ⟨[], [], [], 0⟩ (pyUpper (pyStrip " widget9 "))).isSome →
        api_add_inventory_item ⟨[], [], [], 0⟩ 7 "op1" " widget9 " "Widget" "Alat" "0"
          = (.error .Conflict, ⟨[], [], [], 0⟩)) ∧
      (¬ (findItem ⟨[], [], [], 0⟩ (pyUpper (pyStrip " widget9 "))).isSome →
        api_add_inventory_item ⟨[], [], [], 0⟩ 7 "op1" " widget9 " "Widget" "Alat" "0"
          = (.ok ⟨pyUpper (pyStrip " widget9 "), pyStrip "Widget", 0, pyStrip "Alat", "op1", 7⟩,
             { users := [], items := [] ++
                 [⟨pyUpper (pyStrip " widget9 "), pyStrip "Widget", 0, pyStrip "Alat", "op1", 7⟩],
               transactions := [], next_tx_id := 0 }))) :=
  create_item_contract ⟨[], [], [], 0⟩ 7 "op1" " widget9 " "Widget" "Alat" "0" 0
    (by decide) (by decide)

/-- **C5 (amended).** Deletion guards. For every state: deleting an item
referenced by at least one transaction fails with `Conflict` and changes
nothing; deleting a user referenced by at least one transaction fails and
changes nothing, but with the generic 500 (`StoreFailure`) — the ORM nulls
the non-nullable `Transaction.user_username` before the delete, and the
resulting "cannot be null" IntegrityError misses the handler's
`"foreign key constraint"` substring check — **not** with the
blocked-by-reference `Conflict` the original claim states (see the
counterexample `delete_referenced_user_not_conflict`); deleting one's own
account fails (`SelfDeletion`) and changes nothing. -/
theorem delete_referential_integrity
    (st : DBState) (item_id session_username username : String)
    (hitem : (findItem st item_id).isSome)
    (huser : (findUser st username).isSome) :
    ((∃ tx ∈ st.transactions, tx.item_id = item_id) →
      api_delete_inventory_item st item_id = (.error .Conflict, st)) ∧
    (username ≠ session_username →
      (∃ tx ∈ st.transactions, tx.user_username = username) →
      api_delete_user st session_username username = (.error .StoreFailure, st)) ∧
    (username = session_username →
      api_delete_user st session_username username = (.error .SelfDeletion, st)) := by
  obtain ⟨item, hfi⟩ := Option.isSome_iff_exists.mp hitem
  obtain ⟨user, hfu⟩ := Option.isSome_iff_exists.mp huser
  refine ⟨?_, ?_, ?_⟩
  · intro ⟨tx, htx, heq⟩
    have hlen : (st.transactions.filter (fun t => t.item_id == item_id)).length > 0 :=
      List.length_pos.mpr (List.ne_nil_of_mem
        (List.mem_filter.mpr ⟨htx, by simp [heq]⟩))
    unfold api_delete_inventory_item
    rw [hfi]
    dsimp only
    rw [if_pos hlen]
  · intro hne ⟨tx, htx, heq⟩
    have hlen : (st.transactions.filter (fun t => t.user_username == username)).length > 0 :=
      List.length_pos.mpr (List.ne_nil_of_mem
        (List.mem_filter.mpr ⟨htx, by simp [heq]⟩))
    unfold api_delete_user
    rw [hfu]
    dsimp only
    rw [if_neg hne, if_pos hlen]
  · intro heq
    unfold api_delete_user
    rw [hfu]
    dsimp only
    rw [if_pos heq]

theorem delete_referential_integrity_witness :
    ((∃ tx ∈ (⟨[⟨"admin", "h", .admin, "Admin"⟩, ⟨"budi", "h2", .operator, "Budi"⟩],
        [⟨"ITEM001", "Barang", 3, "Kat", "budi", 0⟩],
        [⟨0, .masuk, "ITEM001", 3, "budi", 1, ""⟩], 1⟩ : DBState).transactions,
        tx.item_id = "ITEM001") →
      api_delete_inventory_item
        ⟨[⟨"admin", "h", .admin, "Admin"⟩, ⟨"budi", "h2", .operator, "Budi"⟩],
         [⟨"ITEM001", "Barang", 3, "Kat", "budi", 0⟩],
         [⟨0, .masuk, "ITEM001", 3, "budi", 1, ""⟩], 1⟩ "ITEM001"
        = (.error .Conflict,
           ⟨[⟨"admin", "h", .admin, "Admin"⟩, ⟨"budi", "h2", .operator, "Budi"⟩],
            [⟨"ITEM001", "Barang", 3, "Kat", "budi", 0⟩],
            [⟨0, .masuk, "ITEM001", 3, "budi", 1, ""⟩], 1⟩)) ∧
    ("budi" ≠ "admin" →
      (∃ tx ∈ (⟨[⟨"admin", "h", .admin, "Admin"⟩, ⟨"budi", "h2", .operator, "Budi"⟩],
          [⟨"ITEM001", "Barang", 3, "Kat", "budi", 0⟩],
          [⟨0, .masuk, "ITEM001", 3, "budi", 1, ""⟩], 1⟩ : DBState).transactions,
          tx.user_username = "budi") →
      api_delete_user
        ⟨[⟨"admin", "h", .admin, "Admin"⟩, ⟨"budi", "h2", .operator, "Budi"⟩],
         [⟨"ITEM001", "Barang", 3, "Kat", "budi", 0⟩],
         [⟨0, .masuk, "ITEM001", 3, "budi", 1, ""⟩], 1⟩ "admin" "budi"
        = (.error .StoreFailure,
           ⟨[⟨"admin", "h", .admin, "Admin"⟩, ⟨"budi", "h2", .operator, "Budi"⟩],
            [⟨"ITEM001", "Barang", 3, "Kat", "budi", 0⟩],
            [⟨0, .masuk, "ITEM001", 3, "budi", 1, ""⟩], 1⟩)) ∧
    ("budi" = "admin" →
      api_delete_user
        ⟨[⟨"admin", "h", .admin, "Admin"⟩, ⟨"budi", "h2", .operator, "Budi"⟩],
         [⟨"ITEM001", "Barang", 3, "Kat", "budi", 0⟩],
         [⟨0, .masuk, "ITEM001", 3, "budi", 1, ""⟩], 1⟩ "admin" "budi"
        = (.error .SelfDeletion,
           ⟨[⟨"admin", "h", .admin, "Admin"⟩, ⟨"budi", "h2", .operator, "Budi"⟩],
            [⟨"ITEM001", "Barang", 3, "Kat", "budi", 0⟩],
            [⟨0, .masuk, "ITEM001", 3, "budi", 1, ""⟩], 1⟩)) :=
  delete_referential_integrity
    ⟨[⟨"admin", "h", .admin, "Admin"⟩, ⟨"budi", "h2", .operator, "Budi"⟩],
     [⟨"ITEM001", "Barang", 3, "Kat", "budi", 0⟩],
     [⟨0, .masuk, "ITEM001", 3, "budi", 1, ""⟩], 1⟩
    "ITEM001" "admin" "budi" (by decide) (by decide)

/-- **C5, counterexample to the original claim.** Admin deletes the user
`budi`, who is referenced by exactly one transaction: the call does *not*
fail with `Conflict` — it returns the generic 500 (`StoreFailure`), because
the ORM's nulling of the non-nullable `Transaction.user_username` raises a
"cannot be null" IntegrityError that the handler's
`"foreign key constraint"` substring check misses. (It still deletes
nothing.) -/
theorem delete_referenced_user_not_conflict :
    (api_delete_user
      ⟨[⟨"admin", "h", .admin, "Admin"⟩, ⟨"budi", "h2", .operator, "Budi"⟩],
       [⟨"ITEM001", "Barang", 3, "Kat", "budi", 0⟩],
       [⟨0, .masuk, "ITEM001", 3, "budi", 1, ""⟩], 1⟩ "admin" "budi").1
      ≠ .error .Conflict ∧
    api_delete_user
      ⟨[⟨"admin", "h", .admin, "Admin"⟩, ⟨"budi", "h2", .operator, "Budi"⟩],
       [⟨"ITEM001", "Barang", 3, "Kat", "budi", 0⟩],
       [⟨0, .masuk, "ITEM001", 3, "budi", 1, ""⟩], 1⟩ "admin" "budi"
      = (.error .StoreFailure,
         ⟨[⟨"admin", "h", .admin, "Admin"⟩, ⟨"budi", "h2", .operator, "Budi"⟩],
          [⟨"ITEM001", "Barang", 3, "Kat", "budi", 0⟩],
          [⟨0, .masuk, "ITEM001", 3, "budi", 1, ""⟩], 1⟩) := by
  refine ⟨by decide, by decide⟩

/-- **C6.** Self-demotion guard. For every `api_update_user` call where the
target username equals the caller's session username, the target's stored
role is `admin`, and the payload requests a role other than `admin`
(with a well-formed name field, if one is present), the call fails with
`InvalidOperation` and the user table — the target's role, name and
password hash included — is unchanged. -/
theorem self_demotion_guard
    (hashPw : String → String) (st : DBState) (username : String)
    (p : UserUpdatePayload) (user : User) (r : Role)
    (hfind : findUser st username = some user)
    (hadmin : user.role = .admin)
    (hrole : p.upd_role = some r) (hr : r ≠ .admin)
    (hname : ∀ n, p.upd_name = some n → pyStrip n ≠ "") :
    api_update_user hashPw st username username p
      = (.error .InvalidOperation, st) := by
  unfold api_update_user
  rw [hfind]
  dsimp only
  cases hn : p.upd_name with
  | none =>
    dsimp only
    rw [hrole]
    dsimp only
    rw [if_pos ⟨rfl, hadmin, hr⟩]
  | some n =>
    dsimp only
    rw [if_neg (hname n hn)]
    by_cases hb : user.name ≠ pyStrip n
    · rw [if_pos hb]
      dsimp only
      rw [hrole]
      dsimp only
      rw [if_pos ⟨rfl, hadmin, hr⟩]
    · rw [if_neg hb]
      dsimp only
      rw [hrole]
      dsimp only
      rw [if_pos ⟨rfl, hadmin, hr⟩]

theorem self_demotion_guard_witness :
    api_update_user (fun s => s)
      ⟨[⟨"admin", "h", .admin, "Admin"⟩], [], [], 0⟩ "admin" "admin"
      ⟨none, some .operator, none⟩
      = (.error .InvalidOperation, ⟨[⟨"admin", "h", .admin, "Admin"⟩], [], [], 0⟩) :=
  self_demotion_guard (fun s => s) ⟨[⟨"admin", "h", .admin, "Admin"⟩], [], [], 0⟩
    "admin" ⟨none, some .operator, none⟩ ⟨"admin", "h", .admin, "Admin"⟩ .operator
    (by decide) (by decide) (by decide) (by decide)
    (fun n hn => by cases hn)

theorem insertTxDesc_nil (x : Transaction) : insertTxDesc x [] = [x] := rfl

theorem insertTxDesc_cons (x y : Transaction) (ys : List Transaction) :
    insertTxDesc x (y :: ys)
      = if x.timestamp < y.timestamp then y :: insertTxDesc x ys
        else x :: y :: ys := rfl

theorem insertTxDesc_perm (x : Transaction) (l : List Transaction) :
    (insertTxDesc x l).Perm (x :: l) := by
  induction l with
  | nil => exact List.Perm.refl _
  | cons y ys ih =>
    rw [insertTxDesc_cons]
    by_cases h : x.timestamp < y.timestamp
    · rw [if_pos h]
      exact (ih.cons y).trans (List.Perm.swap x y ys)
    · rw [if_neg h]

theorem sortByTimestampDesc_perm (l : List Transaction) :
    (sortByTimestampDesc l).Perm l := by
  induction l with
  | nil => exact List.Perm.refl _
  | cons x xs ih =>
    exact (insertTxDesc_perm x (sortByTimestampDesc xs)).trans (ih.cons x)

theorem insertTxDesc_sorted {x : Transaction} {l : List Transaction}
    (h : l.Pairwise (fun a b => b.timestamp ≤ a.timestamp)) :
    (insertTxDesc x l).Pairwise (fun a b => b.timestamp ≤ a.timestamp) := by
  induction l with
  | nil => simp [insertTxDesc_nil]
  | cons y ys ih =>
    obtain ⟨hy, hys⟩ := List.pairwise_cons.mp h
    rw [insertTxDesc_cons]
    by_cases hlt : x.timestamp < y.timestamp
    · rw [if_pos hlt]
      rw [List.pairwise_cons]
      refine ⟨?_, ih hys⟩
      intro z hz
      rcases List.mem_cons.mp ((insertTxDesc_perm x ys).mem_iff.mp hz) with hzx | hzys
      · subst hzx
        omega
      · exact hy z hzys
    · rw [if_neg hlt]
      rw [List.pairwise_cons]
      refine ⟨?_, List.pairwise_cons.mpr ⟨hy, hys⟩⟩
      intro z hz
      rcases List.mem_cons.mp hz with hzy | hzys
      · subst hzy
        omega
      · have := hy z hzys
        omega

theorem sortByTimestampDesc_sorted (l : List Transaction) :
    (sortByTimestampDesc l).Pairwise (fun a b => b.timestamp ≤ a.timestamp) := by
  induction l with
  | nil => simp [sortByTimestampDesc]
  | cons x xs ih => exact insertTxDesc_sorted ih

/-- **C7 (amended).** For every transaction store: a timestamp-descending
result always exists for every filter argument (the `ORDER BY` contract is
satisfiable); every result the handler may return for the unfiltered query
consists of all transactions of the table in some timestamp-descending
order, with each timestamp's entries the same multiset as in the table; and
every result under the `masuk`/`keluar` filter consists of exactly the
transactions of that type, again in some timestamp-descending order. The
original claim's tie-break ("ties broken by insertion order") is **not**
guaranteed by the program: `ORDER BY timestamp DESC` carries no secondary
key, so equal-timestamp rows may come back in any order (see the
counterexample `transactions_tie_order_unspecified`). -/
theorem transactions_listing_contract (st : DBState) :
    (∀ type_arg : Option String, ∃ output, api_get_transactions st type_arg output) ∧
    (∀ output, api_get_transactions st none output →
       output.Perm st.transactions ∧
       output.Pairwise (fun a b => b.timestamp ≤ a.timestamp) ∧
       ∀ t : Nat, (output.filter (fun tx => tx.timestamp == t)).Perm
         (st.transactions.filter (fun tx => tx.timestamp == t))) ∧
    (∀ output, api_get_transactions st (some "masuk") output →
       output.Perm (st.transactions.filter (fun tx => tx.type == TxType.masuk)) ∧
       output.Pairwise (fun a b => b.timestamp ≤ a.timestamp)) ∧
    (∀ output, api_get_transactions st (some "keluar") output →
       output.Perm (st.transactions.filter (fun tx => tx.type == TxType.keluar)) ∧
       output.Pairwise (fun a b => b.timestamp ≤ a.timestamp)) := by
  refine ⟨?_, ?_, ?_, ?_⟩
  · intro ta
    exact ⟨sortByTimestampDesc (txTypeFilter st ta),
      sortByTimestampDesc_perm _, sortByTimestampDesc_sorted _⟩
  · intro output h
    obtain ⟨hperm, hsort⟩ := h
    exact ⟨hperm, hsort, fun t => hperm.filter _⟩
  · intro output h
    obtain ⟨hperm, hsort⟩ := h
    have hred : txTypeFilter st (some "masuk")
        = st.transactions.filter (fun tx => txTypeStr tx.type == "masuk") := by
      simp [txTypeFilter]
    have hpq : st.transactions.filter (fun tx => txTypeStr tx.type == "masuk")
        = st.transactions.filter (fun tx => tx.type == TxType.masuk) :=
      List.filter_congr (fun tx _ => by cases htx : tx.type <;> simp [txTypeStr, htx])
    rw [hred, hpq] at hperm
    exact ⟨hperm, hsort⟩
  · intro output h
    obtain ⟨hperm, hsort⟩ := h
    have hred : txTypeFilter st (some "keluar")
        = st.transactions.filter (fun tx => txTypeStr tx.type == "keluar") := by
      simp [txTypeFilter]
    have hpq : st.transactions.filter (fun tx => txTypeStr tx.type == "keluar")
        = st.transactions.filter (fun tx => tx.type == TxType.keluar) :=
      List.filter_congr (fun tx _ => by cases htx : tx.type <;> simp [txTypeStr, htx])
    rw [hred, hpq] at hperm
    exact ⟨hperm, hsort⟩

/-- **C7, counterexample to the original claim.** Two transactions share the
timestamp `5`; the `ORDER BY timestamp DESC` contract also permits the
result that returns them in the opposite of insertion order, so "ties
broken by insertion order" is not a guarantee of the program: this
permitted output's entries at timestamp `5` differ from the table's
insertion order. -/
theorem transactions_tie_order_unspecified :
    api_get_transactions
      ⟨[], [], [⟨0, .masuk, "ITEM001", 1, "u", 5, ""⟩,
                ⟨1, .keluar, "ITEM001", 2, "u", 5, ""⟩], 2⟩ none
      [⟨1, .keluar, "ITEM001", 2, "u", 5, ""⟩,
       ⟨0, .masuk, "ITEM001", 1, "u", 5, ""⟩] ∧
    ¬ (([⟨1, .keluar, "ITEM001", 2, "u", 5, ""⟩,
         ⟨0, .masuk, "ITEM001", 1, "u", 5, ""⟩] : List Transaction).filter
          (fun tx => tx.timestamp == 5)
        = (⟨[], [], [⟨0, .masuk, "ITEM001", 1, "u", 5, ""⟩,
             ⟨1, .keluar, "ITEM001", 2, "u", 5, ""⟩], 2⟩ : DBState).transactions.filter
            (fun tx => tx.timestamp == 5)) := by
  refine ⟨⟨List.Perm.swap _ _ _, by decide⟩, by decide⟩


/-- **C8.** No account-existence leak at login. For any two failing login
attempts with non-empty credentials — one whose username does not exist,
one whose username exists but whose password does not match — the observable
outcome is identical: the same flash message, the same rendered page, no
session. -/
theorem login_failure_indistinguishable
    (check : String → String → Bool) (st : DBState)
    (u1 p1 u2 p2 : String) (user : User)
    (hu1 : u1 ≠ "") (hp1 : p1 ≠ "") (hu2 : u2 ≠ "") (hp2 : p2 ≠ "")
    (hmiss : findUser st u1 = none)
    (hhit : findUser st u2 = some user)
    (hwrong : check user.password_hash p2 = false) :
    login check st u1 p1 = login check st u2 p2 := by
  unfold login
  rw [if_neg (by push_neg; exact ⟨hu1, hp1⟩), if_neg (by push_neg; exact ⟨hu2, hp2⟩),
    hmiss, hhit]
  dsimp only
  rw [hwrong]
  simp

theorem login_failure_indistinguishable_witness :
    login (fun h p => h == p) ⟨[⟨"alice", "secret", .operator, "Alice"⟩], [], [], 0⟩
        "bob" "pw"
      = login (fun h p => h == p) ⟨[⟨"alice", "secret", .operator, "Alice"⟩], [], [], 0⟩
        "alice" "wrong" :=
  login_failure_indistinguishable (fun h p => h == p)
    ⟨[⟨"alice", "secret", .operator, "Alice"⟩], [], [], 0⟩
    "bob" "pw" "alice" "wrong" ⟨"alice", "secret", .operator, "Alice"⟩
    (by decide) (by decide) (by decide) (by decide)
    (by decide) (by decide) (by decide)

theorem find?_map_ite_user {l : List User} {name : String}
    {g : User → User} (hg : ∀ x, (g x).username = x.username) :
    (l.map (fun x => if x.username == name then g x else x)).find?
        (fun x => x.username == name)
      = (l.find? (fun x => x.username == name)).map g := by
  induction l with
  | nil => rfl
  | cons a l ih =>
    by_cases h : a.username = name
    · simp [List.find?, h, hg]
    · have h3 : (a.username == name) = false := beq_eq_false_iff_ne.mpr h
      simpa [List.find?, h, h3, -List.find?_map] using ih

/-- **C9.** The authorization decision of the gate depends only on the role
recorded in the session, never on the role stored in the user table: two
runs over stores in which the session user's existence is the same produce
the same admit/forbid outcome whatever the stored roles are, and in
particular rewriting the stored role of the session's user leaves the
outcome of every gated request unchanged (only deleting the user row
changes it, to `Unauthenticated`). -/
theorem gate_ignores_stored_role
    (st1 st2 : DBState) (u : SessionUser) (allowed : List Role)
    (hsame : (findUser st1 u.username).isSome = (findUser st2 u.username).isSome) :
    gate st1 (some u) allowed = gate st2 (some u) allowed ∧
    (∀ (st : DBState) (r : Role),
      gate { st with users := st.users.map (fun w =>
          if w.username == u.username then { w with role := r } else w) }
        (some u) allowed = gate st (some u) allowed) := by
  have main : ∀ sa sb : DBState,
      (findUser sa u.username).isSome = (findUser sb u.username).isSome →
      gate sa (some u) allowed = gate sb (some u) allowed := by
    intro sa sb hss
    unfold gate
    dsimp only
    have h : (findUser sa u.username).isNone = (findUser sb u.username).isNone := by
      cases hc1 : findUser sa u.username <;> cases hc2 : findUser sb u.username <;>
        simp_all
    rw [h]
  refine ⟨main st1 st2 hsame, ?_⟩
  intro st r
  refine main _ st ?_
  show (findUser { st with users := st.users.map (fun w =>
      if w.username == u.username then { w with role := r } else w) }
    u.username).isSome = (findUser st u.username).isSome
  unfold findUser
  rw [find?_map_ite_user (g := fun w => { w with role := r }) (fun w => rfl)]
  cases findUser st u.username <;> simp [findUser]

theorem gate_ignores_stored_role_witness :
    gate ⟨[⟨"carol", "h", .admin, "Carol"⟩], [], [], 0⟩
        (some ⟨"carol", .admin, "Carol"⟩) [.admin]
      = gate ⟨[⟨"carol", "h", .operator, "Carol"⟩], [], [], 0⟩
        (some ⟨"carol", .admin, "Carol"⟩) [.admin] ∧
    (∀ (st : DBState) (r : Role),
      gate { st with users := st.users.map (fun w =>
          if w.username == (SessionUser.username ⟨"carol", .admin, "Carol"⟩) then
            { w with role := r } else w) }
        (some ⟨"carol", .admin, "Carol"⟩) [.admin]
      = gate st (some ⟨"carol", .admin, "Carol"⟩) [.admin]) :=
  gate_ignores_stored_role
    ⟨[⟨"carol", "h", .admin, "Carol"⟩], [], [], 0⟩
    ⟨[⟨"carol", "h", .operator, "Carol"⟩], [], [], 0⟩
    ⟨"carol", .admin, "Carol"⟩ [.admin] (by decide)

/-- **C10.** `api_update_inventory_item` with a payload whose name, category
and quantity all equal the item's current (well-formed) values succeeds and
performs no write: the returned item is the stored item unchanged, the
state is unchanged, and in particular `last_update` keeps its old value
(the timestamp is refreshed only when some field actually changes). -/
theorem update_item_noop
    (st : DBState) (now : Nat) (item_id : String) (item : InventoryItem)
    (hfind : findItem st item_id = some item)
    (hname : pyStrip item.name = item.name) (hname0 : item.name ≠ "")
    (hcat : pyStrip item.category = item.category) (hcat0 : item.category ≠ "")
    (hq : 0 ≤ item.quantity) :
    api_update_inventory_item st now item_id
      ⟨some item.name, some item.category, some item.quantity⟩
      = (.ok item, st) := by
  unfold api_update_inventory_item
  rw [hfind]
  dsimp only
  rw [hname, if_neg hname0, if_neg (show ¬item.name ≠ item.name from fun hc => hc rfl)]
  dsimp only
  rw [hcat, if_neg hcat0,
    if_neg (show ¬item.category ≠ item.category from fun hc => hc rfl)]
  dsimp only
  rw [if_neg (show ¬item.quantity < 0 by omega),
    if_neg (show ¬item.quantity ≠ item.quantity from fun hc => hc rfl)]
  rfl

theorem update_item_noop_witness :
    api_update_inventory_item
      ⟨[], [⟨"ITEM001", "Barang", 4, "Kat", "admin", 9⟩], [], 0⟩ 99 "ITEM001"
      ⟨some "Barang", some "Kat", some 4⟩
      = (.ok ⟨"ITEM001", "Barang", 4, "Kat", "admin", 9⟩,
         ⟨[], [⟨"ITEM001", "Barang", 4, "Kat", "admin", 9⟩], [], 0⟩) :=
  update_item_noop ⟨[], [⟨"ITEM001", "Barang", 4, "Kat", "admin", 9⟩], [], 0⟩
    99 "ITEM001" ⟨"ITEM001", "Barang", 4, "Kat", "admin", 9⟩
    (by decide) (by decide) (by decide) (by decide) (by decide) (by decide)
